import Mathlib

/-!
Shallow embedding of the RAS Room Manager (`ras-room-mgr.py`): the room
entity model, the REST client operations (`get_chat_rooms`,
`create_chat_room`) and the direct-store deletion path
(`delete_chat_room` with its SQL construction, pre-flight checks and
post-delete count verification), together with theorems settling the
specification claims about them.
-/

namespace RasRoomMgr

/-- A participant record as it appears on the wire
(`{screen_name, id}`, either field possibly absent). -/
structure Participant where
  screen_name : Option String
  id : Option String
deriving DecidableEq, Repr

/-- A raw wire record for one room, as decoded from the JSON array
returned by `GET /chat/room/{category}`: each field may be absent. -/
structure WireRoom where
  name : Option String
  create_time : Option String
  participants : Option (List Participant)
deriving DecidableEq, Repr

/-- The `ChatRoom` entity of the source: `__init__` stores the
category string, the name, the optional creation time, and
`participants or []` (an absent participant list becomes empty). -/
structure ChatRoom where
  type : String
  name : String
  create_time : Option String
  participants : List Participant
deriving DecidableEq, Repr

/-- Construction of a `ChatRoom` from optional participants, mirroring
`participants or []` in `ChatRoom.__init__`. -/
def ChatRoom.make (room_type : String) (name : String)
    (create_time : Option String) (participants : Option (List Participant)) : ChatRoom :=
  { type := room_type, name := name, create_time := create_time,
    participants := participants.getD [] }

/-- The fixed backing-store path (`self.sqlite_path`). -/
def sqlitePath : String := "/usr/local/ras/oscar.sqlite"

/-- The fixed store-access executable path (`self.sqlite_cmd`). -/
def sqliteCmd : String := "/usr/bin/sqlite3"

/-- Python whitespace characters recognised by `str.strip()` (ASCII). -/
def isPySpace (c : Char) : Bool :=
  c = ' ' || c = '\t' || c = '\n' || c = '\r' || c = '\x0b' || c = '\x0c'

/-- The effect of Python `str.strip()` on a character list: drop
whitespace from both ends. -/
def pyStrip (l : List Char) : List Char :=
  ((l.dropWhile isPySpace).reverse.dropWhile isPySpace).reverse

/-- Python `str.strip()` lifted to strings. -/
def pyStripS (s : String) : String := String.mk (pyStrip s.data)

/-- Decimal digit value of a character, or `none`. -/
def digitVal (c : Char) : Option Nat :=
  if '0' ≤ c ∧ c ≤ '9' then some (c.toNat - '0'.toNat) else none

/-- Accumulating decimal parse of a digit string; fails on the first
non-digit character. -/
def parseDigitsAux : List Char → Nat → Option Nat
  | [], acc => some acc
  | c :: rest, acc =>
    match digitVal c with
    | some d => parseDigitsAux rest (acc * 10 + d)
    | none => none

/-- Parse a non-empty digit string as a natural number. -/
def parseDigits : List Char → Option Nat
  | [] => none
  | l => parseDigitsAux l 0

/-- The effect of Python `int()` on an already-stripped string: an
optional sign followed by at least one decimal digit, anything else
raising (modelled as `none`). -/
def pyInt (l : List Char) : Option Int :=
  match l with
  | '-' :: rest => (parseDigits rest).map (fun n => -(n : Int))
  | '+' :: rest => (parseDigits rest).map (fun n => (n : Int))
  | _ => (parseDigits l).map (fun n => (n : Int))

/-- The source's `_validate_room_name`: reject the empty name, then
reject a name whose `strip()` is empty; accept otherwise. -/
def _validate_room_name (room_name : String) : Bool :=
  if room_name.data.isEmpty then false
  else if (pyStrip room_name.data).isEmpty then false
  else true

/-- Quote escaping from `delete_chat_room`:
`chat_room.name.replace("'", "''")` at the character level. -/
def escapeChars : List Char → List Char
  | [] => []
  | c :: rest =>
    if c = '\'' then '\'' :: '\'' :: escapeChars rest
    else c :: escapeChars rest

/-- Quote escaping on strings (`escaped_name` in the source). -/
def escapeName (s : String) : String := String.mk (escapeChars s.data)

/-- The fixed text of the deletion statement up to and including the
opening quote of the name literal. -/
def delHead : String := "DELETE FROM chatRoom WHERE name = '"

/-- The fixed text of the verification count query up to and including
the opening quote of the name literal. -/
def cntHead : String := "SELECT COUNT(*) FROM chatRoom WHERE name = '"

/-- `sql_query` of `delete_chat_room`: the deletion statement built by
string interpolation of the escaped name. -/
def deleteSql (name : String) : String :=
  delHead ++ escapeName name ++ "'"

/-- `check_query` of `delete_chat_room`: the follow-up count query built
by string interpolation of the escaped name. -/
def countSql (name : String) : String :=
  cntHead ++ escapeName name ++ "'"

/-- SQLite lexing of a single-quoted string literal body, starting just
after the opening quote: a doubled quote denotes one quote character,
a lone quote closes the literal. Returns the literal's value and the
remaining input, or `none` if the literal is unterminated. -/
def parseBody : List Char → Option (List Char × List Char)
  | [] => none
  | c :: rest =>
    if c = '\'' then
      match rest with
      | d :: rest2 =>
        if d = '\'' then (parseBody rest2).map (fun p => ('\'' :: p.1, p.2))
        else some ([], rest)
      | [] => some ([], [])
    else (parseBody rest).map (fun p => (c :: p.1, p.2))

/-- Recognise a statement of shape `head` followed by a quoted name
literal that spans the rest of the statement exactly; return the
literal's value. -/
def parseWrapped (head q : String) : Option String :=
  if q.data.take head.data.length = head.data then
    match parseBody (q.data.drop head.data.length) with
    | some (v, []) => some (String.mk v)
    | _ => none
  else none

/-- Semantics of one invocation of the sqlite3 shell on the room table,
with the store modelled as the list of room names (one entry per row):
a well-formed deletion statement removes exactly the rows whose name
equals the decoded literal and prints nothing; a well-formed count
query prints the number of matching rows followed by a newline; any
other statement fails. The result is `(stdout, new store)`. -/
def execStmt (q : String) (rows : List String) : Option (String × List String) :=
  match parseWrapped delHead q with
  | some v => some ("", rows.filter (fun r => !(r = v : Bool)))
  | none =>
    match parseWrapped cntHead q with
    | some v => some (toString (rows.filter (fun r => (r = v : Bool))).length ++ "\n", rows)
    | none => none

/-- An external store-access tool: given a statement and a store state,
either fails (non-zero exit or launch failure, `none`) or returns the
captured stdout and the successor store state. -/
structure Tool (σ : Type) where
  run : String → σ → Option (String × σ)

/-- The sqlite3 shell as a `Tool` over the list-of-rows store model. -/
def sqliteTool : Tool (List String) := ⟨execStmt⟩

/-- The outcome of one HTTP POST as observed by `create_chat_room`:
a response with a status code and body text, or one of the exception
classes the source catches (`ConnectionError`, other
`RequestException`, any other exception). -/
inductive NetResult where
  | response (status : Nat) (text : String)
  | connectionError
  | requestError
  | otherError
deriving DecidableEq, Repr

/-- A request issued by `create_chat_room`: target endpoint URL and the
room name carried in the `{"name": ...}` payload. -/
structure HttpRequest where
  url : String
  payloadName : String
deriving DecidableEq, Repr

/-- `_get_rooms_endpoint`: the category-scoped collection URL. -/
def _get_rooms_endpoint (base_url room_type : String) : String :=
  base_url ++ "/chat/room/" ++ room_type

/-- The normalized outcome of a creation attempt, one constructor per
error branch of `create_chat_room` (plus success). The optional body on
`invalidInput` and `unexpectedResponse` is the server response text
when non-empty, matching the source's `if response.text:` guard. -/
inductive CreateResult where
  | success
  | unsupportedOperation
  | invalidInput (body : Option String)
  | alreadyExists
  | unexpectedResponse (status : Nat) (body : Option String)
  | unreachable
  | requestFailed
  | unexpectedError
deriving DecidableEq, Repr

/-- The source's `create_chat_room`, returning the outcome together
with the list of HTTP requests it issued: reject `private` before
anything else, then validate the name, then POST `{"name": name}` to
the category endpoint and map the response status (201 created, 400
bad request, 409 conflict, anything else unexpected) or the caught
exception. The `net` argument is the behaviour of the network for the
single request, consulted only if a request is issued. -/
def create_chat_room (base_url : String) (chat_room : ChatRoom)
    (net : NetResult) : CreateResult × List HttpRequest :=
  if chat_room.type = "private" then (.unsupportedOperation, [])
  else if !(_validate_room_name chat_room.name) then (.invalidInput none, [])
  else
    let req : HttpRequest :=
      ⟨_get_rooms_endpoint base_url chat_room.type, chat_room.name⟩
    match net with
    | .response status text =>
      if status = 201 then (.success, [req])
      else if status = 400 then
        (.invalidInput (if text = "" then none else some text), [req])
      else if status = 409 then (.alreadyExists, [req])
      else (.unexpectedResponse status (if text = "" then none else some text), [req])
    | .connectionError => (.unreachable, [req])
    | .requestError => (.requestFailed, [req])
    | .otherError => (.unexpectedError, [req])

/-- The outcome of the single GET as observed by `get_chat_rooms`: a
response carrying a status code and, when the body is well-formed JSON,
the decoded array of wire records (`none` body = malformed JSON), or a
caught request exception. -/
inductive GetNet where
  | response (status : Nat) (body : Option (List WireRoom))
  | connectionError
  | requestError
deriving DecidableEq, Repr

/-- Decoding of one wire record into a `ChatRoom` inside
`get_chat_rooms`: `room_data.get('name', 'Unknown')`,
`room_data.get('create_time')`, `room_data.get('participants', [])`. -/
def decodeWire (room_type : String) (w : WireRoom) : ChatRoom :=
  { type := room_type,
    name := w.name.getD "Unknown",
    create_time := w.create_time,
    participants := w.participants.getD [] }

/-- The source's `get_chat_rooms`: `raise_for_status` turns any status
of 400 or above into a caught `HTTPError` (result `none`); a malformed
JSON body is a caught decode error (result `none`); connection or
request failures give `none`; otherwise every record of the array is
decoded in order (an empty array returns the empty list early). -/
def get_chat_rooms (room_type : String) (net : GetNet) : Option (List ChatRoom) :=
  match net with
  | .connectionError => none
  | .requestError => none
  | .response status body =>
    if 400 ≤ status then none
    else
      match body with
      | none => none
      | some rooms_data =>
        if rooms_data.isEmpty then some []
        else some (rooms_data.map (decodeWire room_type))

/-- The environment consulted by the deletion path's pre-flight checks:
which filesystem paths exist (`os.path.exists`), whether `os.stat` on
the store succeeds, and the read/write access answers of `os.access`. -/
structure DeleteEnv where
  fsExists : String → Bool
  statOk : Bool
  readable : Bool
  writable : Bool

/-- An environment in which every pre-flight check passes. -/
def envAllOk : DeleteEnv := ⟨fun _ => true, true, true, true⟩

/-- Outcome of `_check_database_permissions`. -/
inductive PermCheck where
  | ok
  | denied (hints : List String)
  | statError
deriving DecidableEq, Repr

/-- The remediation hints printed by `_check_database_permissions` when
access is insufficient. -/
def permissionHints : List String :=
  ["Run the script as a user with database access (e.g., sudo)",
   "Change file permissions: sudo chmod 666 " ++ sqlitePath,
   "Add current user to the appropriate group"]

/-- The source's `_check_database_permissions`: `os.stat` failure is a
caught `OSError`; otherwise access is sufficient exactly when the store
file is both readable and writable, and the denial carries the printed
remediation hints. -/
def _check_database_permissions (env : DeleteEnv) : PermCheck :=
  if !env.statOk then .statError
  else if !env.readable || !env.writable then .denied permissionHints
  else .ok

/-- The normalized outcome of a deletion attempt, one constructor per
error branch of `delete_chat_room` (plus success). -/
inductive DeleteResult where
  | success
  | invalidInput
  | storeNotFound
  | toolNotFound
  | permissionDenied (hints : List String)
  | permissionCheckError
  | toolExecutionFailed
  | deletionUnverified
  | unexpectedError
deriving DecidableEq, Repr

/-- The source's `delete_chat_room`, returning the outcome together
with the list of SQL statements handed to the external tool: validate
the name, check the store file exists, check the sqlite3 executable
exists, check permissions, then run the deletion statement followed by
the count query, parse the count from the stripped stdout with `int()`
(failure to parse is the caught generic exception), and succeed exactly
when the count is zero. The tool is abstract: `tool.run` threads a
store state of type `σ` and returns `none` where the source would see
`CalledProcessError`. -/
def delete_chat_room {σ : Type} (tool : Tool σ) (s0 : σ)
    (env : DeleteEnv) (chat_room : ChatRoom) : DeleteResult × List String :=
  if !(_validate_room_name chat_room.name) then (.invalidInput, [])
  else if !(env.fsExists sqlitePath) then (.storeNotFound, [])
  else if !(env.fsExists sqliteCmd) then (.toolNotFound, [])
  else
    match _check_database_permissions env with
    | .statError => (.permissionCheckError, [])
    | .denied hints => (.permissionDenied hints, [])
    | .ok =>
      let sql_query := deleteSql chat_room.name
      match tool.run sql_query s0 with
      | none => (.toolExecutionFailed, [sql_query])
      | some (_, s1) =>
        let check_query := countSql chat_room.name
        match tool.run check_query s1 with
        | none => (.toolExecutionFailed, [sql_query, check_query])
        | some (out, _) =>
          match pyInt (pyStrip out.data) with
          | none => (.unexpectedError, [sql_query, check_query])
          | some room_count =>
            if room_count = 0 then (.success, [sql_query, check_query])
            else (.deletionUnverified, [sql_query, check_query])

/-! Helper lemmas about escaping, statement parsing and the store
semantics. -/

/-- Unfolding of `parseBody` at a non-quote head character. -/
theorem parseBody_cons_of_ne {c : Char} (hc : ¬ c = '\'') (l : List Char) :
    parseBody (c :: l) = (parseBody l).map (fun p => (c :: p.1, p.2)) := by
  rw [parseBody.eq_def]
  simp [hc]

/-- Unfolding of `parseBody` at a doubled quote. -/
theorem parseBody_quote_quote (l : List Char) :
    parseBody ('\'' :: '\'' :: l) = (parseBody l).map (fun p => ('\'' :: p.1, p.2)) := rfl

/-- SQLite lexing undoes the quote doubling of the escaper: the escaped
name followed by the closing quote parses back to exactly the original
name, with nothing left over. -/
theorem parseBody_escapeChars (l : List Char) :
    parseBody (escapeChars l ++ ['\'']) = some (l, []) := by
  induction l with
  | nil => rfl
  | cons c rest ih =>
    by_cases hc : c = '\''
    · subst hc
      show parseBody ('\'' :: '\'' :: (escapeChars rest ++ ['\''])) = _
      rw [parseBody_quote_quote, ih]
      rfl
    · have hesc : escapeChars (c :: rest) = c :: escapeChars rest := by
        simp [escapeChars, hc]
      rw [hesc, List.cons_append, parseBody_cons_of_ne hc, ih]
      rfl

/-- Rebuilding a string from its character data is the identity. -/
theorem String.mk_data (s : String) : String.mk s.data = s := rfl

/-- Character data of the generated statements. -/
theorem sql_data (head : String) (name : String) :
    (head ++ escapeName name ++ "'").data
      = head.data ++ (escapeChars name.data ++ ['\'']) := by
  simp [String.data_append, escapeName, List.append_assoc]

/-- A statement built as `head ++ escaped name ++ closing quote` is
recognised by `parseWrapped head` and decodes to exactly the name. -/
theorem parseWrapped_append (head name : String) :
    parseWrapped head (head ++ escapeName name ++ "'") = some name := by
  unfold parseWrapped
  rw [sql_data, List.take_left, if_pos rfl, List.drop_left,
    parseBody_escapeChars]

/-- Taking as many characters as a shorter, different list from a
longer head never reproduces the other list. -/
theorem take_append_ne_of_head {l r m : List Char}
    (hl : l ≠ []) (hm : m ≠ []) (h : l.head? ≠ m.head?) :
    (l ++ r).take m.length ≠ m := by
  cases l with
  | nil => exact absurd rfl hl
  | cons a l2 =>
    cases m with
    | nil => exact absurd rfl hm
    | cons b m2 =>
      simp only [List.cons_append, List.length_cons, List.take_succ_cons]
      intro heq
      apply h
      simp [List.head?, (List.cons.injEq .. ▸ heq).1]

/-- The deletion head and the count head disagree, so a count query is
never mistaken for a deletion statement. -/
theorem parseWrapped_delHead_countSql (name : String) :
    parseWrapped delHead (countSql name) = none := by
  unfold parseWrapped countSql
  rw [sql_data, if_neg]
  have hle : delHead.data.length ≤ cntHead.data.length := by decide
  rw [List.take_append_of_le_length hle]
  decide

/-- A deletion statement is never mistaken for a count query. -/
theorem parseWrapped_cntHead_deleteSql (name : String) :
    parseWrapped cntHead (deleteSql name) = none := by
  unfold parseWrapped deleteSql
  rw [sql_data, if_neg]
  exact take_append_ne_of_head (by decide) (by decide) (by decide)

/-- Effect of the generated deletion statement on the store: exactly
the rows carrying the target name are removed, and nothing is printed. -/
theorem execStmt_deleteSql (name : String) (rows : List String) :
    execStmt (deleteSql name) rows
      = some ("", rows.filter (fun r => !(r = name : Bool))) := by
  unfold execStmt
  rw [show deleteSql name = delHead ++ escapeName name ++ "'" from rfl,
    parseWrapped_append]

/-- Effect of the generated count query on the store: the store is
unchanged and the printed count is the number of rows carrying exactly
the target name. -/
theorem execStmt_countSql (name : String) (rows : List String) :
    execStmt (countSql name) rows
      = some (toString (rows.filter (fun r => (r = name : Bool))).length ++ "\n",
          rows) := by
  unfold execStmt
  rw [parseWrapped_delHead_countSql,
    show countSql name = cntHead ++ escapeName name ++ "'" from rfl,
    parseWrapped_append]

/-- A name whose characters are all whitespace fails validation. -/
theorem validate_false_of_all_space {s : String}
    (h : s.data.all isPySpace = true) : _validate_room_name s = false := by
  have h1 : s.data.dropWhile isPySpace = [] :=
    List.dropWhile_eq_nil_iff.mpr fun c hc => List.all_eq_true.mp h c hc
  simp [_validate_room_name, pyStrip, h1]

/-- A non-whitespace member of a list survives dropping the leading
whitespace. -/
theorem mem_dropWhile_of_mem {c : Char} {p : Char → Bool} :
    ∀ {l : List Char}, c ∈ l → p c = false → c ∈ l.dropWhile p
  | a :: tl, hc, hns => by
    by_cases ha : p a
    · rw [List.dropWhile_cons_of_pos ha]
      rcases List.mem_cons.mp hc with hca | hct
      · subst hca; simp [ha] at hns
      · exact mem_dropWhile_of_mem hct hns
    · rw [List.dropWhile_cons_of_neg ha]
      exact hc

/-- A name containing at least one non-whitespace character passes
validation. -/
theorem validate_true_of_exists_nonspace {s : String} {c : Char}
    (hc : c ∈ s.data) (hns : isPySpace c = false) :
    _validate_room_name s = true := by
  unfold _validate_room_name
  have h1 : c ∈ s.data.dropWhile isPySpace := mem_dropWhile_of_mem hc hns
  have h2 : c ∈ ((s.data.dropWhile isPySpace).reverse.dropWhile isPySpace) :=
    mem_dropWhile_of_mem (List.mem_reverse.mpr h1) hns
  rw [if_neg, if_neg]
  · intro hempty
    rw [List.isEmpty_iff] at hempty
    have : c ∈ pyStrip s.data := by
      unfold pyStrip; exact List.mem_reverse.mpr h2
    simp [hempty] at this
  · intro hempty
    rw [List.isEmpty_iff] at hempty
    simp [hempty] at hc

/-- Rows that survive the deletion filter never carry the deleted
name, so the verification count over them is taken over no rows. -/
theorem filter_ne_filter_eq_nil (rows : List String) (name : String) :
    (rows.filter (fun r => !(r = name : Bool))).filter
      (fun r => (r = name : Bool)) = [] := by
  induction rows with
  | nil => rfl
  | cons a tl ih =>
    by_cases h : a = name <;> simp [h, ih]

/-- The printed count for zero rows parses back to the integer zero. -/
theorem pyInt_zero : pyInt (pyStrip ((toString (0 : Nat)) ++ "\n").data) = some 0 := by
  decide

/-- Full run of the deletion path over the sqlite store model with all
pre-flight checks passing: the two generated statements are issued in
order and the outcome is success. -/
theorem delete_on_store (env : DeleteEnv) (rows : List String) (room : ChatRoom)
    (hv : _validate_room_name room.name = true)
    (hs : env.fsExists sqlitePath = true)
    (hc : env.fsExists sqliteCmd = true)
    (hst : env.statOk = true) (hr : env.readable = true) (hw : env.writable = true) :
    delete_chat_room sqliteTool rows env room
      = (.success, [deleteSql room.name, countSql room.name]) := by
  have hperm : _check_database_permissions env = .ok := by
    simp [_check_database_permissions, hst, hr, hw]
  have hnil := filter_ne_filter_eq_nil rows room.name
  simp only [delete_chat_room, hv, hs, hc, hperm, sqliteTool, execStmt_deleteSql,
    execStmt_countSql, hnil, List.length_nil, pyInt_zero, Bool.not_true,
    Bool.not_false, Bool.false_eq_true, ite_true, ite_false, if_true, if_false]

/-- C1: for every room name containing a single-quote character,
`delete_chat_room` escapes the quotes (doubling them) before
interpolating the name into both the DELETE statement and the COUNT
verification query; the generated statements lex back to exactly that
name (no corruption), the deletion removes precisely the rows with that
exact name, and the count counts precisely those rows. -/
theorem C1_delete_escapes_quotes (name : String) (rows : List String)
    (hq : '\'' ∈ name.data) :
    (delete_chat_room sqliteTool rows envAllOk ⟨"public", name, none, []⟩).2
        = [deleteSql name, countSql name] ∧
    deleteSql name = delHead ++ escapeName name ++ "'" ∧
    countSql name = cntHead ++ escapeName name ++ "'" ∧
    parseWrapped delHead (deleteSql name) = some name ∧
    parseWrapped cntHead (countSql name) = some name ∧
    execStmt (deleteSql name) rows
        = some ("", rows.filter (fun r => !(r = name : Bool))) ∧
    execStmt (countSql name) rows
        = some (toString (rows.filter (fun r => (r = name : Bool))).length ++ "\n",
            rows) := by
  have hv : _validate_room_name name = true :=
    validate_true_of_exists_nonspace hq (by decide)
  refine ⟨?_, rfl, rfl, parseWrapped_append delHead name, parseWrapped_append cntHead name,
    execStmt_deleteSql name rows, execStmt_countSql name rows⟩
  rw [delete_on_store envAllOk rows ⟨"public", name, none, []⟩ hv rfl rfl rfl rfl rfl]

/-- Witness for C1 at the quoted name `O'Brien` over a two-row store. -/
theorem C1_delete_escapes_quotes_witness :
    '\'' ∈ ("O'Brien" : String).data ∧
    (delete_chat_room sqliteTool ["O'Brien", "General"] envAllOk
        ⟨"public", "O'Brien", none, []⟩).2
      = [deleteSql "O'Brien", countSql "O'Brien"] ∧
    execStmt (deleteSql "O'Brien") ["O'Brien", "General"]
      = some ("", ["General"]) := by
  refine ⟨by decide, (C1_delete_escapes_quotes "O'Brien" ["O'Brien", "General"]
    (by decide)).1, ?_⟩
  have h := (C1_delete_escapes_quotes "O'Brien" ["O'Brien", "General"] (by decide)).2.2.2.2.2.1
  rw [h]
  decide

/-- C7: the outcome of the deletion path does not depend on the room's
category: for every tool behaviour, store state, environment and name,
deletion with category `public` and with category `private` return the
same result and issue the same statements. -/
theorem C7_delete_category_independent {σ : Type} (tool : Tool σ) (s0 : σ)
    (env : DeleteEnv) (name : String) (ct : Option String) (ps : List Participant) :
    delete_chat_room tool s0 env ⟨"public", name, ct, ps⟩
      = delete_chat_room tool s0 env ⟨"private", name, ct, ps⟩ := rfl

/-- C9: deleting a name with no matching row in the store reports
success (the post-delete count is zero), indistinguishable from a
fresh deletion and never `deletionUnverified` or a not-found failure. -/
theorem C9_delete_absent_name_success (env : DeleteEnv) (rows : List String)
    (room : ChatRoom)
    (hv : _validate_room_name room.name = true)
    (hs : env.fsExists sqlitePath = true)
    (hc : env.fsExists sqliteCmd = true)
    (hst : env.statOk = true) (hr : env.readable = true) (hw : env.writable = true)
    (habs : room.name ∉ rows) :
    delete_chat_room sqliteTool rows env room
      = (.success, [deleteSql room.name, countSql room.name]) :=
  delete_on_store env rows room hv hs hc hst hr hw

/-- Witness for C9: deleting the never-created name `Ghost` from a
store holding only `Lounge` succeeds. -/
theorem C9_delete_absent_name_success_witness :
    _validate_room_name "Ghost" = true ∧
    ("Ghost" : String) ∉ (["Lounge"] : List String) ∧
    delete_chat_room sqliteTool ["Lounge"] envAllOk ⟨"public", "Ghost", none, []⟩
      = (.success, [deleteSql "Ghost", countSql "Ghost"]) :=
  ⟨by decide, by decide,
    C9_delete_absent_name_success envAllOk ["Lounge"] ⟨"public", "Ghost", none, []⟩
      (by decide) rfl rfl rfl rfl rfl (by decide)⟩

/-- C2: with a valid name and all pre-flight checks passing, deletion
reports success exactly when the follow-up count query returns zero;
a non-zero count yields `deletionUnverified`, and a failing deletion
command yields `toolExecutionFailed` (its success is necessary but not
sufficient, since the count alone decides). -/
theorem C2_success_iff_count_zero {σ : Type} (tool : Tool σ) (s0 : σ)
    (env : DeleteEnv) (room : ChatRoom)
    (hv : _validate_room_name room.name = true)
    (hs : env.fsExists sqlitePath = true)
    (hc : env.fsExists sqliteCmd = true)
    (hst : env.statOk = true) (hr : env.readable = true) (hw : env.writable = true) :
    (tool.run (deleteSql room.name) s0 = none →
      (delete_chat_room tool s0 env room).1 = .toolExecutionFailed) ∧
    (∀ o1 s1 out s2 k,
      tool.run (deleteSql room.name) s0 = some (o1, s1) →
      tool.run (countSql room.name) s1 = some (out, s2) →
      pyInt (pyStrip out.data) = some k →
      (((delete_chat_room tool s0 env room).1 = .success) ↔ k = 0) ∧
      (k ≠ 0 → (delete_chat_room tool s0 env room).1 = .deletionUnverified)) := by
  have hperm : _check_database_permissions env = .ok := by
    simp [_check_database_permissions, hst, hr, hw]
  constructor
  · intro hrun
    simp only [delete_chat_room, hv, hs, hc, hperm, hrun, Bool.not_true,
      Bool.false_eq_true, ite_false, if_false]
  · intro o1 s1 out s2 k h1 h2 h3
    simp only [delete_chat_room, hv, hs, hc, hperm, h1, h2, h3, Bool.not_true,
      Bool.false_eq_true, ite_false, if_false]
    by_cases hk : k = 0 <;> simp [hk]

/-- Witness for C2 over the sqlite store model with a one-row store. -/
theorem C2_success_iff_count_zero_witness :
    _validate_room_name "Lounge" = true ∧
    ((sqliteTool.run (deleteSql "Lounge") ["Lounge"] = none →
      (delete_chat_room sqliteTool ["Lounge"] envAllOk
          ⟨"public", "Lounge", none, []⟩).1 = .toolExecutionFailed) ∧
    (∀ o1 s1 out s2 k,
      sqliteTool.run (deleteSql "Lounge") ["Lounge"] = some (o1, s1) →
      sqliteTool.run (countSql "Lounge") s1 = some (out, s2) →
      pyInt (pyStrip out.data) = some k →
      (((delete_chat_room sqliteTool ["Lounge"] envAllOk
          ⟨"public", "Lounge", none, []⟩).1 = .success) ↔ k = 0) ∧
      (k ≠ 0 → (delete_chat_room sqliteTool ["Lounge"] envAllOk
          ⟨"public", "Lounge", none, []⟩).1 = .deletionUnverified))) :=
  ⟨by decide,
    C2_success_iff_count_zero sqliteTool ["Lounge"] envAllOk
      ⟨"public", "Lounge", none, []⟩ (by decide) rfl rfl rfl rfl rfl⟩

/-- C6: with a valid name, each pre-flight check is a distinct failure
mode checked before any statement is handed to the external tool: a
missing store file yields `storeNotFound`, a missing sqlite3 executable
yields `toolNotFound`, and missing read or write access yields
`permissionDenied` carrying non-empty remediation hints; in every case
the list of issued statements is empty. -/
theorem C6_delete_preflight_checks {σ : Type} (tool : Tool σ) (s0 : σ)
    (env : DeleteEnv) (room : ChatRoom)
    (hv : _validate_room_name room.name = true) :
    (env.fsExists sqlitePath = false →
      delete_chat_room tool s0 env room = (.storeNotFound, [])) ∧
    (env.fsExists sqlitePath = true → env.fsExists sqliteCmd = false →
      delete_chat_room tool s0 env room = (.toolNotFound, [])) ∧
    (env.fsExists sqlitePath = true → env.fsExists sqliteCmd = true →
      env.statOk = true → (env.readable && env.writable) = false →
      delete_chat_room tool s0 env room = (.permissionDenied permissionHints, []) ∧
      permissionHints ≠ []) := by
  refine ⟨fun h1 => ?_, fun h1 h2 => ?_, fun h1 h2 h3 h4 => ⟨?_, by decide⟩⟩
  · simp only [delete_chat_room, hv, h1, Bool.not_true, Bool.not_false,
      Bool.false_eq_true, ite_false, ite_true, if_false, if_true]
  · simp only [delete_chat_room, hv, h1, h2, Bool.not_true, Bool.not_false,
      Bool.false_eq_true, ite_false, ite_true, if_false, if_true]
  · have hperm : _check_database_permissions env = .denied permissionHints := by
      rcases Bool.and_eq_false_iff.mp h4 with hr | hw
      · simp [_check_database_permissions, h3, hr]
      · simp [_check_database_permissions, h3, hw]
    simp only [delete_chat_room, hv, h1, h2, hperm, Bool.not_true,
      Bool.false_eq_true, ite_false, if_false]

/-- Witness for C6 in an environment where no path exists. -/
theorem C6_delete_preflight_checks_witness :
    _validate_room_name "Lounge" = true ∧
    ((⟨fun _ => false, true, true, true⟩ : DeleteEnv).fsExists sqlitePath = false →
      delete_chat_room sqliteTool ["Lounge"] ⟨fun _ => false, true, true, true⟩
        ⟨"public", "Lounge", none, []⟩ = (.storeNotFound, [])) :=
  ⟨by decide,
    (C6_delete_preflight_checks sqliteTool ["Lounge"]
      ⟨fun _ => false, true, true, true⟩ ⟨"public", "Lounge", none, []⟩ (by decide)).1⟩

/-- C3: for every valid name, creation with category `private` fails
immediately with `unsupportedOperation`, issuing no request, whatever
the network would have answered; the direct-store path is structurally
unreachable from `create_chat_room`. -/
theorem C3_private_create_rejected (base name : String) (ct : Option String)
    (ps : List Participant) (net : NetResult)
    (hv : _validate_room_name name = true) :
    create_chat_room base ⟨"private", name, ct, ps⟩ net
      = (.unsupportedOperation, []) := by
  unfold create_chat_room
  rw [if_pos rfl]

/-- Witness for C3 at the valid name `Lounge`. -/
theorem C3_private_create_rejected_witness :
    _validate_room_name "Lounge" = true ∧
    create_chat_room "http://localhost:8080" ⟨"private", "Lounge", none, []⟩
        .connectionError = (.unsupportedOperation, []) :=
  ⟨by decide,
    C3_private_create_rejected "http://localhost:8080" "Lounge" none []
      .connectionError (by decide)⟩

/-- C4 counterexample: creating a private room with the empty name
fails with `unsupportedOperation`, not `invalidInput` — the category
check precedes name validation — refuting the claim that for both room
categories an empty name yields the `invalidInput` outcome. -/
theorem C4_counterexample :
    create_chat_room "http://localhost:8080" ⟨"private", "", none, []⟩
        .connectionError = (.unsupportedOperation, []) ∧
    ¬ ∃ body, (create_chat_room "http://localhost:8080" ⟨"private", "", none, []⟩
        .connectionError).1 = CreateResult.invalidInput body := by
  refine ⟨by decide, ?_⟩
  rintro ⟨body, hb⟩
  rw [show (create_chat_room "http://localhost:8080" ⟨"private", "", none, []⟩
    .connectionError).1 = CreateResult.unsupportedOperation from by decide] at hb
  exact CreateResult.noConfusion hb

/-- C4 amended: for every empty or whitespace-only name, before any
network or process I/O, `create` on category `public` fails with
`invalidInput` and `create` on category `private` fails with
`unsupportedOperation` (the category check runs first), while `delete`
fails with `invalidInput` for both categories. -/
theorem C4_blank_names_rejected {σ : Type} (base cat name : String)
    (net : NetResult) (tool : Tool σ) (s0 : σ) (env : DeleteEnv)
    (hws : name.data.all isPySpace = true) :
    create_chat_room base ⟨"public", name, none, []⟩ net = (.invalidInput none, []) ∧
    create_chat_room base ⟨"private", name, none, []⟩ net = (.unsupportedOperation, []) ∧
    delete_chat_room tool s0 env ⟨cat, name, none, []⟩ = (.invalidInput, []) := by
  have hv := validate_false_of_all_space hws
  refine ⟨?_, ?_, ?_⟩
  · simp [create_chat_room, hv]
  · unfold create_chat_room
    rw [if_pos rfl]
  · simp [delete_chat_room, hv]

/-- Witness for the amended C4 at the one-space name. -/
theorem C4_blank_names_rejected_witness :
    (" " : String).data.all isPySpace = true ∧
    create_chat_room "http://localhost:8080" ⟨"public", " ", none, []⟩
        .connectionError = (.invalidInput none, []) ∧
    create_chat_room "http://localhost:8080" ⟨"private", " ", none, []⟩
        .connectionError = (.unsupportedOperation, []) ∧
    delete_chat_room sqliteTool ["Lounge"] envAllOk ⟨"public", " ", none, []⟩
      = (.invalidInput, []) :=
  ⟨by decide,
    C4_blank_names_rejected "http://localhost:8080" "public" " "
      .connectionError sqliteTool ["Lounge"] envAllOk (by decide)⟩

/-- C5: creation of a public room with a valid name maps the backend
response to exactly one outcome: 201 to success, 400 to `invalidInput`
carrying the response body when non-empty, 409 to `alreadyExists`, any
other status to `unexpectedResponse` carrying status and body, and a
connection failure to `unreachable`; in each case exactly one request
is issued, to the category endpoint with the name as payload. -/
theorem C5_create_response_mapping (base name : String) (ct : Option String)
    (ps : List Participant)
    (hv : _validate_room_name name = true) :
    (∀ text, create_chat_room base ⟨"public", name, ct, ps⟩ (.response 201 text)
      = (.success, [⟨_get_rooms_endpoint base "public", name⟩])) ∧
    (∀ text, create_chat_room base ⟨"public", name, ct, ps⟩ (.response 400 text)
      = (.invalidInput (if text = "" then none else some text),
          [⟨_get_rooms_endpoint base "public", name⟩])) ∧
    (∀ text, create_chat_room base ⟨"public", name, ct, ps⟩ (.response 409 text)
      = (.alreadyExists, [⟨_get_rooms_endpoint base "public", name⟩])) ∧
    (∀ status text, status ≠ 201 → status ≠ 400 → status ≠ 409 →
      create_chat_room base ⟨"public", name, ct, ps⟩ (.response status text)
        = (.unexpectedResponse status (if text = "" then none else some text),
            [⟨_get_rooms_endpoint base "public", name⟩])) ∧
    (create_chat_room base ⟨"public", name, ct, ps⟩ .connectionError
      = (.unreachable, [⟨_get_rooms_endpoint base "public", name⟩])) := by
  refine ⟨fun text => ?_, fun text => ?_, fun text => ?_,
    fun status text h1 h2 h3 => ?_, ?_⟩ <;>
    simp [create_chat_room, hv, *]

/-- Witness for C5 at the valid name `Lounge`. -/
theorem C5_create_response_mapping_witness :
    _validate_room_name "Lounge" = true ∧
    (∀ text, create_chat_room "http://localhost:8080"
        ⟨"public", "Lounge", none, []⟩ (.response 201 text)
      = (.success, [⟨_get_rooms_endpoint "http://localhost:8080" "public",
          "Lounge"⟩])) ∧
    create_chat_room "http://localhost:8080" ⟨"public", "Lounge", none, []⟩
        .connectionError
      = (.unreachable, [⟨_get_rooms_endpoint "http://localhost:8080" "public",
          "Lounge"⟩]) := by
  have h := C5_create_response_mapping "http://localhost:8080" "Lounge" none []
    (by decide)
  exact ⟨by decide, h.1, h.2.2.2.2⟩

/-- C8: listing applied to a well-formed JSON array response (any
status passing `raise_for_status`) decodes each record into a room in
the server-provided order, an empty array gives the empty list, and
these are `some` results, distinct from the `none` failure outcomes. -/
theorem C8_list_decodes_in_order (room_type : String) (status : Nat)
    (ws : List WireRoom) (hs : status < 400) :
    get_chat_rooms room_type (.response status (some ws))
      = some (ws.map (decodeWire room_type)) ∧
    get_chat_rooms room_type (.response status (some []))
      = some ([] : List ChatRoom) ∧
    get_chat_rooms room_type .connectionError = none ∧
    some ([] : List ChatRoom) ≠ none := by
  have hlt : ¬ (400 ≤ status) := by omega
  refine ⟨?_, ?_, rfl, by simp⟩
  · by_cases hw : ws.isEmpty
    · rw [List.isEmpty_iff] at hw
      subst hw
      simp [get_chat_rooms, hlt]
    · simp [get_chat_rooms, hlt, hw]
  · simp [get_chat_rooms, hlt]

/-- Witness for C8 at status 200 with a one-record array. -/
theorem C8_list_decodes_in_order_witness :
    (200 : Nat) < 400 ∧
    get_chat_rooms "public" (.response 200 (some [⟨some "Lounge", none, none⟩]))
      = some ([⟨some "Lounge", none, none⟩].map (decodeWire "public")) ∧
    get_chat_rooms "public" (.response 200 (some [])) = some ([] : List ChatRoom) :=
  ⟨by decide,
    (C8_list_decodes_in_order "public" 200 [⟨some "Lounge", none, none⟩]
      (by decide)).1,
    (C8_list_decodes_in_order "public" 200 [⟨some "Lounge", none, none⟩]
      (by decide)).2.1⟩

/-- C10: a wire record lacking the name field never makes listing
fail: the record decodes to a room named `Unknown`, a missing creation
time stays absent, missing participants become the empty list, and a
response containing such a record still decodes successfully. -/
theorem C10_missing_fields_defaulted (room_type : String) (w : WireRoom)
    (ws1 ws2 : List WireRoom) (hn : w.name = none) :
    (decodeWire room_type w).name = "Unknown" ∧
    (w.create_time = none → (decodeWire room_type w).create_time = none) ∧
    (w.participants = none → (decodeWire room_type w).participants = []) ∧
    get_chat_rooms room_type (.response 200 (some (ws1 ++ w :: ws2)))
      = some ((ws1 ++ w :: ws2).map (decodeWire room_type)) := by
  refine ⟨by simp [decodeWire, hn], fun hc => by simp [decodeWire, hc],
    fun hp => by simp [decodeWire, hp], ?_⟩
  have hne : (ws1 ++ w :: ws2).isEmpty = false := by
    cases ws1 <;> rfl
  simp [get_chat_rooms, hne]

/-- Witness for C10 at the all-absent wire record. -/
theorem C10_missing_fields_defaulted_witness :
    (⟨none, none, none⟩ : WireRoom).name = none ∧
    (decodeWire "public" ⟨none, none, none⟩).name = "Unknown" ∧
    get_chat_rooms "public" (.response 200 (some ([] ++ ⟨none, none, none⟩ :: [])))
      = some (([] ++ (⟨none, none, none⟩ : WireRoom) :: []).map (decodeWire "public")) :=
  ⟨rfl,
    (C10_missing_fields_defaulted "public" ⟨none, none, none⟩ [] [] rfl).1,
    (C10_missing_fields_defaulted "public" ⟨none, none, none⟩ [] [] rfl).2.2.2⟩

end RasRoomMgr
